import Mathlib

/-!
Shallow embedding of the core of `app.py` (structured-data generator):
the sitemap resolver (`scrape_sitemap`), the content extractor
(`scrape_page`, `detect_content_type`, `extract_existing_structured_data`)
and the markup orchestrator (`suggest_structured_data`,
`generate_structured_data`).

Modelling conventions:
- A parsed document (a BeautifulSoup object) is a list of `Element`s in
  document order; `find_all` is a filter over that list, `find` is `find?`.
- An `Element` carries the pieces of the BeautifulSoup API the code uses:
  `tag`, its attribute dictionary `attrs`, `get_text()` as `textContent`,
  `.string` as `stringVal` (which is `none` when the tag does not have a
  single string child, e.g. an empty `<title></title>`), and `jsonParses`
  recording whether `json.loads` succeeds on its `.string` (the code's
  JSON parser is external, so parseability is part of the document model).
- Network fetches and the OpenAI client are oracles passed as arguments:
  a fetch is an `Except` value, the completion client is a function
  `String → Except String _` from prompt to response (or exception).
  Exceptions raised by Python code are modelled as `Except.error`.
- Python truthiness of a string (`if src:`) is the test `s ≠ ""`;
  truthiness of `None` is falsity of the `Option`.
-/

/-- One parsed markup element, exposing the slice of the BeautifulSoup API
that `app.py` uses. -/
structure Element where
  tag : String
  attrs : List (String × String)
  textContent : String
  stringVal : Option String
  jsonParses : Bool
deriving DecidableEq

/-- `element.get(key)`: first binding of `key` in the attribute dictionary. -/
def Element.getAttr (e : Element) (k : String) : Option String :=
  (e.attrs.find? (fun a => a.1 == k)).map Prod.snd

/-- `element.get(key, default)`. -/
def Element.attrD (e : Element) (k d : String) : String :=
  (e.getAttr k).getD d

/-- The page-information dictionary built by `WebScraper.scrape_page`; the
error dictionary `{'url': url, 'error': str(e)}` is the same record with
`error` set and every other field at its default. -/
structure PageInfo where
  url : String
  error : Option String
  title : String
  meta_description : String
  headings : List (Nat × String)
  images : List (String × String × String)
  links : List String
  content_type : String
  structured_data : List String
deriving DecidableEq

/-- `{'url': url, 'error': str(e)}`. -/
def errorRecord (url e : String) : PageInfo :=
  { url := url, error := some e, title := "", meta_description := "",
    headings := [], images := [], links := [], content_type := "",
    structured_data := [] }

/-- Is `p` a prefix of `s`?  (Structurally recursive so that the kernel can
evaluate it on literals.) -/
def isPrefixL : List Char → List Char → Bool
  | [], _ => true
  | _ :: _, [] => false
  | p :: ps, c :: cs => p == c && isPrefixL ps cs

/-- Does `s` contain `pat` as a contiguous sublist? -/
def containsL (pat : List Char) (s : List Char) : Bool :=
  match s with
  | [] => isPrefixL pat []
  | _ :: cs => isPrefixL pat s || containsL pat cs

/-- Split at the first occurrence of `sep`: `some (before, after)` when
`sep` occurs, `none` otherwise. -/
def breakOnL (sep : List Char) (s : List Char) : Option (List Char × List Char) :=
  match s with
  | [] => if isPrefixL sep [] then some ([], []) else none
  | c :: cs =>
    if isPrefixL sep s then some ([], s.drop sep.length)
    else
      match breakOnL sep cs with
      | some (pre, post) => some (c :: pre, post)
      | none => none

/-- ASCII lowercasing of one character (what `re.I` amounts to on the
letter-only patterns the code uses). -/
def lowerChar (c : Char) : Char :=
  if 65 ≤ c.toNat && c.toNat ≤ 90 then Char.ofNat (c.toNat + 32) else c

/-- The whitespace stripped by Python's `str.strip()` (the characters that
occur in this program's inputs). -/
def isSpaceChar (c : Char) : Bool :=
  c == ' ' || c == '\t' || c == '\n' || c == '\r'

/-- Python `s.strip()`. -/
def pyStrip (s : String) : String :=
  String.mk (((s.data.dropWhile isSpaceChar).reverse.dropWhile isSpaceChar).reverse)

/-- Does the lowercased string contain `pat` as a substring?  This models
`re.search` with a case-insensitive alternation of literal words: the
pattern `r'price|prezzo'` searched with `re.I` matches a string exactly
when its lowercasing contains `price` or `prezzo`. -/
def containsSub (s pat : String) : Bool :=
  containsL pat.data (s.data.map lowerChar)

/-- `soup.find_all(tags, class_=re.compile(pats, re.I))`: elements whose tag
is one of `tags` and whose `class` attribute exists and matches the
pattern.  The code only ever filters on the `class` attribute. -/
def findAllClass (doc : List Element) (tags : List String) (pats : List String) :
    List Element :=
  doc.filter fun e =>
    tags.contains e.tag &&
      (match e.getAttr "class" with
       | some c => pats.any fun p => containsSub c p
       | none => false)

/-- Truthiness of `soup.find_all(['div', 'span'], class_=re.compile(r'price|prezzo', re.I))`. -/
def hasPriceMarker (doc : List Element) : Bool :=
  !(findAllClass doc ["div", "span"] ["price", "prezzo"]).isEmpty

/-- Truthiness of `soup.find_all(['article', 'div'], class_=re.compile(r'article|post|blog', re.I))`. -/
def hasArticleMarker (doc : List Element) : Bool :=
  !(findAllClass doc ["article", "div"] ["article", "post", "blog"]).isEmpty

/-- Truthiness of `soup.find_all(['div', 'span'], class_=re.compile(r'event|evento|data', re.I))`. -/
def hasEventMarker (doc : List Element) : Bool :=
  !(findAllClass doc ["div", "span"] ["event", "evento", "data"]).isEmpty

/-- Truthiness of `soup.find_all(['div', 'span'], class_=re.compile(r'address|indirizzo|contact', re.I))`. -/
def hasAddressMarker (doc : List Element) : Bool :=
  !(findAllClass doc ["div", "span"] ["address", "indirizzo", "contact"]).isEmpty

/-- `WebScraper._detect_content_type`: fixed priority order, first match
wins, default `'webpage'`. -/
def detect_content_type (doc : List Element) : String :=
  if hasPriceMarker doc then "product"
  else if hasArticleMarker doc then "article"
  else if hasEventMarker doc then "event"
  else if hasAddressMarker doc then "local_business"
  else "webpage"

/-- `list.append(x)` guarded by a test, the shape of every collection loop
in the program: append when the guard yields a value, keep the accumulator
otherwise. -/
def appendOpt (acc : List α) (x? : Option α) : List α :=
  match x? with
  | some x => acc ++ [x]
  | none => acc

/-- `WebScraper._extract_existing_structured_data`: every
`<script type="application/ld+json">` whose `.string` parses as JSON is
kept (as its raw text; the parsed document itself is opaque here), parse
failures are dropped by the bare `except: pass`.  `json.loads(None)` also
raises, so a script without a `.string` is dropped too. -/
def extract_existing_structured_data (doc : List Element) : List String :=
  (doc.filter fun e =>
      e.tag == "script" && e.getAttr "type" == some "application/ld+json").foldl
    (fun acc s =>
      match s.stringVal with
      | some txt => if s.jsonParses then acc ++ [txt] else acc
      | none => acc)
    []

/-- The `scheme://host` part of an absolute URL, empty when `base` carries
no scheme. -/
def schemeHostOf (base : String) : String :=
  match breakOnL "://".data base.data with
  | some (scheme, rest) =>
    String.mk scheme ++ "://" ++ String.mk (rest.takeWhile fun c => c != '/')
  | none => ""

/-- Everything up to and including the last `/`. -/
def upToLastSlash (xs : List Char) : List Char :=
  (xs.reverse.dropWhile fun c => c != '/').reverse

/-- `urljoin(base, rel)` restricted to the reference shapes the program
meets: an absolute reference is returned as is, `//host/...` borrows the
base scheme, `/path` is resolved against the base's scheme and host, and a
bare relative path replaces the last segment of the base path. -/
def urljoin (base rel : String) : String :=
  if containsL "://".data rel.data then rel
  else if isPrefixL "//".data rel.data then
    match breakOnL "://".data base.data with
    | some (scheme, _) => String.mk scheme ++ ":" ++ rel
    | none => rel
  else if isPrefixL "/".data rel.data then schemeHostOf base ++ rel
  else
    match breakOnL "://".data base.data with
    | none => rel
    | some (scheme, rest) =>
      let host := rest.takeWhile fun c => c != '/'
      let path := rest.drop host.length
      if path.isEmpty then String.mk scheme ++ "://" ++ String.mk host ++ "/" ++ rel
      else String.mk scheme ++ "://" ++ String.mk host ++ String.mk (upToLastSlash path) ++ rel

/-- `soup.title.string.strip() if soup.title else ''`: when a `<title>` tag
exists but has no single string child, `.string` is `None` and calling
`.strip()` on it raises `AttributeError`, which the surrounding
`try/except` turns into an error record. -/
def titleOf (doc : List Element) : Except String String :=
  match doc.find? (fun e => e.tag == "title") with
  | none => Except.ok ""
  | some t =>
    match t.stringVal with
    | some s => Except.ok (pyStrip s)
    | none => Except.error "\x27NoneType\x27 object has no attribute \x27strip\x27"

/-- The meta-description lookup inside `scrape_page`:
`soup.find('meta', attrs={'name': 'description'})` then
`meta_desc.get('content', '')`, else the initial `''`. -/
def meta_description_of (doc : List Element) : String :=
  match doc.find? (fun e => e.tag == "meta" && e.getAttr "name" == some "description") with
  | some m => m.attrD "content" ""
  | none => ""

/-- `'h' + str(i)`. -/
def headingTag (i : Nat) : String := "h" ++ toString i

/-- One iteration of the heading loop: `soup.find_all(f'h{i}')[:5]`, each
contributing `{'level': i, 'text': h.get_text().strip()}`. -/
def headingsAtLevel (doc : List Element) (i : Nat) : List (Nat × String) :=
  ((doc.filter fun e => e.tag == headingTag i).take 5).map
    fun h => (i, pyStrip h.textContent)

/-- The heading loop `for i in range(1, 7)` of `scrape_page`, unrolled. -/
def page_headings (doc : List Element) : List (Nat × String) :=
  headingsAtLevel doc 1 ++ headingsAtLevel doc 2 ++ headingsAtLevel doc 3 ++
    headingsAtLevel doc 4 ++ headingsAtLevel doc 5 ++ headingsAtLevel doc 6

/-- `img.get('src')` followed by the truthiness test `if src:`:
yields the `src` string only when the attribute is present and non-empty. -/
def srcOf (img : Element) : Option String :=
  match img.getAttr "src" with
  | some s => if s == "" then none else some s
  | none => none

/-- The dictionary appended for one `<img>` when its `src` is truthy:
`{'src': urljoin(url, src), 'alt': img.get('alt', ''), 'title': img.get('title', '')}`. -/
def imgItem (url : String) (img : Element) : Option (String × String × String) :=
  match srcOf img with
  | some s => some (urljoin url s, img.attrD "alt" "", img.attrD "title" "")
  | none => none

/-- The image loop of `scrape_page`:
`for img in soup.find_all('img')[:10]: src = img.get('src'); if src: append`
— the 10-cap is applied to the raw `<img>` list before the `src` test. -/
def page_images (url : String) (doc : List Element) : List (String × String × String) :=
  ((doc.filter fun e => e.tag == "img").take 10).foldl
    (fun acc img => appendOpt acc (imgItem url img))
    []

/-- `WebScraper.scrape_page`: the fetch (`session.get` plus
`raise_for_status` plus parsing) is the oracle `fetch`; any exception —
a failed fetch or the `AttributeError` from an empty `<title>` — is caught
by the `try/except` and produces `{'url': url, 'error': str(e)}`. -/
def scrape_page (url : String) (fetch : Except String (List Element)) : PageInfo :=
  match fetch with
  | Except.error e => errorRecord url e
  | Except.ok doc =>
    match titleOf doc with
    | Except.error e => errorRecord url e
    | Except.ok t =>
      { url := url, error := none, title := t,
        meta_description := meta_description_of doc,
        headings := page_headings doc,
        images := page_images url doc,
        links := [],
        content_type := detect_content_type doc,
        structured_data := extract_existing_structured_data doc }

/-- One `url/loc` node of a parsed sitemap; `text` is `None` for an empty
element, per `xml.etree.ElementTree`. -/
structure LocNode where
  text : Option String
deriving DecidableEq

/-- `if url.text: urls.append(url.text.strip())`: the truthiness test is on
the raw text, the appended value is trimmed. -/
def locKept (l : LocNode) : Option String :=
  match l.text with
  | some t => if t == "" then none else some (pyStrip t)
  | none => none

/-- `WebScraper.scrape_sitemap`: the fetch-and-parse is the oracle (any
exception yields `[]` via the `except` arm); on success the loop collects
the truthy `loc` texts and `urls[:50]` caps the result afterwards. -/
def scrape_sitemap (fetch : Except String (List LocNode)) : List String :=
  match fetch with
  | Except.error _ => []
  | Except.ok locs =>
    (locs.foldl (fun acc l => appendOpt acc (locKept l)) []).take 50

/-- One suggestion object of the fixed response shape. -/
structure SuggestionItem where
  schema_type : String
  pages : List String
  reason : String
  priority : String
deriving DecidableEq

/-- The parsed `{"suggestions": [...]}` dictionary. -/
structure SuggestResult where
  suggestions : List SuggestionItem
deriving DecidableEq

/-- Python `repr` of a list of strings, as interpolated into the summary
f-string. -/
def pyStrList (xs : List String) : String :=
  "[" ++ String.intercalate ", " (xs.map fun s => "\x27" ++ s ++ "\x27") ++ "]"

/-- The per-page summary f-string of `suggest_structured_data`. -/
def pageSummary (p : PageInfo) : String :=
  "URL: " ++ p.url ++ "\nTitolo: " ++ p.title ++ "\nTipo: " ++ p.content_type ++
    "\nHeadings: " ++ pyStrList ((p.headings.take 3).map Prod.snd)

/-- The body of the summary loop: `if 'error' not in page`, the summary
f-string, else nothing. -/
def summaryItem (p : PageInfo) : Option String :=
  if p.error.isNone then some (pageSummary p) else none

/-- The summary-collection loop of `suggest_structured_data`:
`for page in pages_info[:5]: if 'error' not in page: append(summary)` —
the 5-cap is applied before the error filter. -/
def pages_summary_of (pages_info : List PageInfo) : List String :=
  (pages_info.take 5).foldl (fun acc p => appendOpt acc (summaryItem p)) []

/-- The suggestion prompt around `chr(10).join(pages_summary)`. -/
def suggestPrompt (pages_summary : List String) : String :=
  "Analizza queste pagine web e suggerisci i migliori tipi di dati strutturati Schema.org da implementare:\n\n"
    ++ String.intercalate "\n" pages_summary
    ++ "\n\nFornisci suggerimenti specifici per ogni tipo di pagina identificata, considerando:\n1. I tipi di dati strutturati più efficaci per la SEO\n2. La compatibilità con Google Rich Snippets\n3. Le best practice di Schema.org\n\nRispondi in formato JSON con questa struttura:\n\x7b\n    \"suggestions\": [\n        \x7b\n            \"schema_type\": \"Product\",\n            \"pages\": [\"url1\", \"url2\"],\n            \"reason\": \"Motivo della raccomandazione\",\n            \"priority\": \"high|medium|low\"\n        \x7d\n    ]\n\x7d"

/-- `StructuredDataGenerator.suggest_structured_data`.  The OpenAI call and
the `json.loads` of its content are one oracle `svc` (the single
`try/except` catches both failure modes).  The first component records the
requests issued — the request is sent whether or not it later fails; the
second is the returned dictionary, `{"suggestions": []}` on any
exception. -/
def suggest_structured_data (pages_info : List PageInfo)
    (svc : String → Except String SuggestResult) : List String × SuggestResult :=
  let prompt := suggestPrompt (pages_summary_of pages_info)
  match svc prompt with
  | Except.ok r => ([prompt], r)
  | Except.error _ => ([prompt], ⟨[]⟩)

/-- Python `repr` of one heading dictionary `{'level': i, 'text': t}`. -/
def pyHeading (h : Nat × String) : String :=
  "\x7b\x27level\x27: " ++ toString h.1 ++ ", \x27text\x27: \x27" ++ h.2 ++ "\x27\x7d"

/-- Python `repr` of one image dictionary. -/
def pyImage (im : String × String × String) : String :=
  "\x7b\x27src\x27: \x27" ++ im.1 ++ "\x27, \x27alt\x27: \x27" ++ im.2.1 ++
    "\x27, \x27title\x27: \x27" ++ im.2.2 ++ "\x27\x7d"

def pyList (xs : List String) : String :=
  "[" ++ String.intercalate ", " xs ++ "]"

/-- `schema_to_use = custom_schema if custom_schema else schema_type`:
`None` and the empty string are falsy, so only a non-empty custom schema
overrides `schema_type`. -/
def schemaToUse (schema_type : String) (custom_schema : Option String) : String :=
  match custom_schema with
  | some c => if c == "" then schema_type else c
  | none => schema_type

/-- The generation prompt of `generate_structured_data`. -/
def genPrompt (page_info : PageInfo) (schema_to_use : String) : String :=
  "Genera dati strutturati JSON-LD ottimizzati per SEO utilizzando lo schema \""
    ++ schema_to_use ++ "\" per questa pagina:\n\nURL: " ++ page_info.url
    ++ "\nTitolo: " ++ page_info.title
    ++ "\nMeta Description: " ++ page_info.meta_description
    ++ "\nHeadings: " ++ pyList (page_info.headings.map pyHeading)
    ++ "\nImmagini: " ++ pyList (page_info.images.map pyImage)
    ++ "\n\nRequisiti:\n1. Utilizza il formato JSON-LD\n2. Includi tutte le proprietà obbligatorie per lo schema "
    ++ schema_to_use
    ++ "\n3. Aggiungi proprietà raccomandate quando possibile\n4. Ottimizza per Google Rich Snippets\n5. Usa URL assoluti per le immagini\n6. Segui le best practice di Schema.org\n\nGenera un JSON-LD completo e valido."

/-- `StructuredDataGenerator.generate_structured_data`: builds the prompt
for the effective schema, calls the service, returns its raw content, and
returns `""` on any exception from the call. -/
def generate_structured_data (page_info : PageInfo) (schema_type : String)
    (custom_schema : Option String) (svc : String → Except String String) : String :=
  let prompt := genPrompt page_info (schemaToUse schema_type custom_schema)
  match svc prompt with
  | Except.ok content => content
  | Except.error _ => ""

/-- Does `scrape_page`'s title access raise?  True exactly when a `<title>`
tag exists whose `.string` is `None` (e.g. `<title></title>`). -/
def titleRaises (doc : List Element) : Bool :=
  match doc.find? (fun e => e.tag == "title") with
  | some t => t.stringVal.isNone
  | none => false

/-! ## Concrete documents and records used as test inputs -/

/-- A minimal error-free page record. -/
def okPage : PageInfo :=
  { url := "https://a.test/ok", error := none, title := "", meta_description := "",
    headings := [], images := [], links := [], content_type := "webpage",
    structured_data := [] }

/-- One error-carrying record followed by five error-free ones. -/
def pagesOneErrorFiveOk : List PageInfo :=
  errorRecord "https://a.test/bad" "404" :: List.replicate 5 okPage

/-- `<img alt="x">` — no `src` attribute. -/
def imgNoSrc : Element :=
  { tag := "img", attrs := [("alt", "x")], textContent := "", stringVal := none,
    jsonParses := false }

/-- `<img src="/a.png" alt="A">`. -/
def imgWithSrc : Element :=
  { tag := "img", attrs := [("src", "/a.png"), ("alt", "A")], textContent := "",
    stringVal := none, jsonParses := false }

/-- Ten src-less images followed by one src-bearing image. -/
def docTenSrclessThenOne : List Element :=
  List.replicate 10 imgNoSrc ++ [imgWithSrc]

/-- `<title>T</title>`. -/
def titleT : Element :=
  { tag := "title", attrs := [], textContent := "T", stringVal := some "T",
    jsonParses := false }

/-- `<meta name="description" content="D">`. -/
def metaD : Element :=
  { tag := "meta", attrs := [("name", "description"), ("content", "D")],
    textContent := "", stringVal := none, jsonParses := false }

/-- `<h1>H1</h1>`. -/
def h1H1 : Element :=
  { tag := "h1", attrs := [], textContent := "H1", stringVal := some "H1",
    jsonParses := false }

/-- The synthetic round-trip document of the spec. -/
def roundTripDoc : List Element := [titleT, metaD, h1H1, imgWithSrc]

/-- `<title></title>` — present but empty, so `.string` is `None`. -/
def emptyTitleEl : Element :=
  { tag := "title", attrs := [], textContent := "", stringVal := none,
    jsonParses := false }

def emptyTitleDoc : List Element := [emptyTitleEl]

/-- A document with a heading but no `<title>` at all. -/
def absentTitleDoc : List Element := [h1H1]

/-- `<div class="price-box">`. -/
def divPriceClass : Element :=
  { tag := "div", attrs := [("class", "price-box")], textContent := "",
    stringVal := none, jsonParses := false }

/-- `<span class="contact-info">`. -/
def spanContactClass : Element :=
  { tag := "span", attrs := [("class", "contact-info")], textContent := "",
    stringVal := none, jsonParses := false }

/-- `<div id="price">` — the marker sits in `id`, not `class`. -/
def divPriceId : Element :=
  { tag := "div", attrs := [("id", "price")], textContent := "",
    stringVal := none, jsonParses := false }

/-! ## Characterization lemmas for the collection loops -/

/-- A guarded-append fold is a `filterMap`. -/
theorem appendOpt_foldl (g : α → Option β) (l : List α) (acc : List β) :
    l.foldl (fun a x => appendOpt a (g x)) acc = acc ++ l.filterMap g := by
  induction l generalizing acc with
  | nil => simp
  | cons x xs ih =>
    rw [List.foldl_cons, ih, List.filterMap_cons]
    cases h : g x
    · simp [appendOpt, h]
    · simp [appendOpt, h]

/-- `filterMap` counts exactly the elements on which the guard fires. -/
theorem length_filterMap_eq_countP (g : α → Option β) (l : List α) :
    (l.filterMap g).length = l.countP fun x => (g x).isSome := by
  induction l with
  | nil => rfl
  | cons x xs ih =>
    cases h : g x <;> simp [List.filterMap_cons, List.countP_cons, h, ih]

/-- The summary guard fires exactly on the error-free records. -/
theorem filterMap_summaryItem (l : List PageInfo) :
    l.filterMap summaryItem = (l.filter fun p => p.error.isNone).map pageSummary := by
  induction l with
  | nil => rfl
  | cons x xs ih =>
    by_cases h : x.error.isNone <;>
      simp [List.filterMap_cons, List.filter_cons, summaryItem, h, ih]

theorem pages_summary_of_eq (pages_info : List PageInfo) :
    pages_summary_of pages_info
      = ((pages_info.take 5).filter fun p => p.error.isNone).map pageSummary := by
  unfold pages_summary_of
  rw [appendOpt_foldl, List.nil_append, filterMap_summaryItem]

theorem imgItem_isSome (url : String) (img : Element) :
    (imgItem url img).isSome = (srcOf img).isSome := by
  unfold imgItem
  cases srcOf img <;> rfl

theorem page_images_eq (url : String) (doc : List Element) :
    page_images url doc
      = ((doc.filter fun e => e.tag == "img").take 10).filterMap (imgItem url) := by
  unfold page_images
  rw [appendOpt_foldl, List.nil_append]

theorem scrape_sitemap_eq (locs : List LocNode) :
    scrape_sitemap (Except.ok locs) = (locs.filterMap locKept).take 50 := by
  show (locs.foldl (fun acc l => appendOpt acc (locKept l)) []).take 50 = _
  rw [appendOpt_foldl, List.nil_append]

/-- A heading block for level `i` contributes nothing to the count at an
other level. -/
theorem countP_headingsAtLevel_ne (doc : List Element) {i L : Nat} (h : i ≠ L) :
    (headingsAtLevel doc i).countP (fun p => p.1 == L) = 0 := by
  apply List.countP_eq_zero.mpr
  intro a ha
  unfold headingsAtLevel at ha
  simp only [List.mem_map] at ha
  obtain ⟨e, _, rfl⟩ := ha
  simp [h]

/-- A heading block holds at most 5 entries. -/
theorem countP_headingsAtLevel_le (doc : List Element) (i L : Nat) :
    (headingsAtLevel doc i).countP (fun p => p.1 == L) ≤ 5 := by
  refine le_trans (List.countP_le_length _) ?_
  unfold headingsAtLevel
  rw [List.length_map]
  exact List.length_take_le 5 _

/-- At most 5 heading entries per level across the whole unrolled loop. -/
theorem countP_page_headings (doc : List Element) (L : Nat) :
    (page_headings doc).countP (fun p => p.1 == L) ≤ 5 := by
  unfold page_headings
  simp only [List.countP_append]
  have z : ∀ i, i ≠ L → (headingsAtLevel doc i).countP (fun p => p.1 == L) = 0 :=
    fun i h => countP_headingsAtLevel_ne doc h
  have b : ∀ i, (headingsAtLevel doc i).countP (fun p => p.1 == L) ≤ 5 :=
    fun i => countP_headingsAtLevel_le doc i L
  by_cases h1 : (1 : Nat) = L
  · have := b 1
    rw [z 2 (by omega), z 3 (by omega), z 4 (by omega), z 5 (by omega), z 6 (by omega)]
    omega
  by_cases h2 : (2 : Nat) = L
  · have := b 2
    rw [z 1 (by omega), z 3 (by omega), z 4 (by omega), z 5 (by omega), z 6 (by omega)]
    omega
  by_cases h3 : (3 : Nat) = L
  · have := b 3
    rw [z 1 (by omega), z 2 (by omega), z 4 (by omega), z 5 (by omega), z 6 (by omega)]
    omega
  by_cases h4 : (4 : Nat) = L
  · have := b 4
    rw [z 1 (by omega), z 2 (by omega), z 3 (by omega), z 5 (by omega), z 6 (by omega)]
    omega
  by_cases h5 : (5 : Nat) = L
  · have := b 5
    rw [z 1 (by omega), z 2 (by omega), z 3 (by omega), z 4 (by omega), z 6 (by omega)]
    omega
  by_cases h6 : (6 : Nat) = L
  · have := b 6
    rw [z 1 (by omega), z 2 (by omega), z 3 (by omega), z 4 (by omega), z 5 (by omega)]
    omega
  rw [z 1 h1, z 2 h2, z 3 h3, z 4 h4, z 5 h5, z 6 h6]
  omega

/-- The image list never exceeds 10 entries. -/
theorem page_images_length_le (url : String) (doc : List Element) :
    (page_images url doc).length ≤ 10 := by
  rw [page_images_eq]
  refine le_trans (List.length_filterMap_le _ _) ?_
  exact List.length_take_le 10 _

/-! ## Claim theorems -/

/-- Claim C1 (amended): in `suggest_structured_data` the cap of 5 pages is
applied to the raw input sequence first and the error filter only
afterwards, so the prompt holds one summary per error-free signal among
the first 5 input signals — not among all error-free signals. -/
theorem pages_summary_cap_then_filter (pages_info : List PageInfo) :
    pages_summary_of pages_info
        = ((pages_info.take 5).filter fun p => p.error.isNone).map pageSummary ∧
      (pages_summary_of pages_info).length
        = (pages_info.take 5).countP fun p => p.error.isNone := by
  refine ⟨pages_summary_of_eq pages_info, ?_⟩
  rw [pages_summary_of_eq, List.length_map, ← List.countP_eq_length_filter]

/-- Claim C1 counterexample: with one error-carrying signal followed by
five error-free ones the input holds 5 error-free signals, yet only 4
summaries are built, because the cap of 5 is applied before the error
filter. -/
theorem pages_summary_cex_error_then_five :
    (pagesOneErrorFiveOk.countP fun p => p.error.isNone) = 5 ∧
      ((pages_summary_of pagesOneErrorFiveOk).length == 5) = false := by
  decide

/-- Claim C2 (amended): an `<img>` without `src` is excluded from the
images list but does count toward the 10-entry cap: the cap is applied to
the raw `<img>` sequence first, and the `src` test filters only within
those first 10 elements. -/
theorem page_images_cap_before_src (url : String) (doc : List Element) :
    page_images url doc
        = ((doc.filter fun e => e.tag == "img").take 10).filterMap (imgItem url) ∧
      (page_images url doc).length
        = ((doc.filter fun e => e.tag == "img").take 10).countP
            (fun img => (srcOf img).isSome) ∧
      (page_images url doc).length ≤ 10 := by
  refine ⟨page_images_eq url doc, ?_, page_images_length_le url doc⟩
  rw [page_images_eq, length_filterMap_eq_countP]
  exact List.countP_congr fun img _ => by rw [imgItem_isSome]

/-- Claim C2 counterexample: a document whose first 10 `<img>` elements
lack `src` yields no image entries at all, even though a later `<img>`
carries one — the src-less elements already consumed the cap. -/
theorem page_images_cex_srcless_fill_cap :
    (docTenSrclessThenOne.countP fun e => e.tag == "img" && (srcOf e).isSome) = 1 ∧
      page_images "https://x.test/p" docTenSrclessThenOne = [] := by
  decide

/-- Claim C3 (amended): `suggest_structured_data` applied to an empty page
list still issues exactly one request to the generation service — the
prompt simply lists no page summaries — and the empty suggestion sequence
is returned through the failure arm when the call or its parse fails. -/
theorem suggest_empty_still_requests (svc : String → Except String SuggestResult) :
    (suggest_structured_data [] svc).1 = [suggestPrompt []] ∧
      pages_summary_of [] = [] ∧
      (suggest_structured_data [] (fun _ => Except.error "boom")).2.suggestions = [] := by
  refine ⟨?_, rfl, rfl⟩
  show (match svc (suggestPrompt []) with
      | Except.ok r => ([suggestPrompt []], r)
      | Except.error _ => ([suggestPrompt []], (⟨[]⟩ : SuggestResult))).1
    = [suggestPrompt []]
  cases svc (suggestPrompt []) <;> rfl

/-- Claim C3 counterexample: on the empty input the number of requests
issued to the generation service is not zero — the prompt is sent anyway. -/
theorem suggest_empty_requests_cex :
    ((suggest_structured_data [] (fun _ => Except.error "boom")).1.length == 0) = false := by
  decide

/-- Claim C4 (amended): given successfully fetched markup, extraction
yields a signal with no error marker whenever the `<title>` access is safe
— in particular an absent `<title>` yields `title = ""` — but a `<title>`
that is present without a single string child (e.g. empty) makes
`.string.strip()` raise `AttributeError`, and the catch-all turns that
into a failure record with the url preserved. -/
theorem scrape_page_error_marker (url : String) (doc : List Element) :
    (titleRaises doc = false → (scrape_page url (Except.ok doc)).error = none) ∧
      (titleRaises doc = true →
        scrape_page url (Except.ok doc)
          = errorRecord url "\x27NoneType\x27 object has no attribute \x27strip\x27") := by
  unfold scrape_page titleOf titleRaises
  cases h : doc.find? (fun e => e.tag == "title") with
  | none => simp [h]
  | some t =>
    cases hs : t.stringVal with
    | none => simp [h, hs]
    | some s => simp [h, hs]

/-- Closed instance of the C4 theorem: a document without `<title>`
extracts error-free, an empty `<title>` produces the failure record. -/
theorem scrape_page_error_marker_witness :
    (scrape_page "https://w.test/a" (Except.ok absentTitleDoc)).error = none ∧
      scrape_page "https://w.test/b" (Except.ok emptyTitleDoc)
        = errorRecord "https://w.test/b" "\x27NoneType\x27 object has no attribute \x27strip\x27" :=
  ⟨(scrape_page_error_marker "https://w.test/a" absentTitleDoc).1 (by decide),
   (scrape_page_error_marker "https://w.test/b" emptyTitleDoc).2 (by decide)⟩

/-- Claim C4 counterexample: a document whose `<title>` is present but
empty does not yield `title = ""` — extraction produces a failure record
with the error marker set. -/
theorem scrape_page_empty_title_cex :
    ((emptyTitleDoc.find? fun e => e.tag == "title").isSome) = true ∧
      (scrape_page "https://e.test/q" (Except.ok emptyTitleDoc)).error.isSome = true := by
  decide

/-- Claim C5 (amended): classification is total into the five fixed values
and evaluates its rules in fixed priority order — price, article, event,
address, else `webpage` — but the markers are class-attribute markers on
`div`/`span` (respectively `article`/`div`) elements only; the `id`
attribute is never examined.  A price-class marker classifies `product`
whatever else is present (so a page with both price and address markers is
`product`); an address-class marker alone classifies `local_business`; no
marker yields `webpage`. -/
theorem detect_content_type_priority :
    (∀ doc, detect_content_type doc
        ∈ (["product", "article", "event", "local_business", "webpage"] : List String)) ∧
      (∀ doc, hasPriceMarker doc = true → detect_content_type doc = "product") ∧
      (∀ doc, hasPriceMarker doc = false → hasArticleMarker doc = false →
        hasEventMarker doc = false → hasAddressMarker doc = true →
        detect_content_type doc = "local_business") ∧
      (∀ doc, hasPriceMarker doc = false → hasArticleMarker doc = false →
        hasEventMarker doc = false → hasAddressMarker doc = false →
        detect_content_type doc = "webpage") := by
  refine ⟨?_, ?_, ?_, ?_⟩
  · intro doc
    unfold detect_content_type
    by_cases h1 : hasPriceMarker doc <;> by_cases h2 : hasArticleMarker doc <;>
      by_cases h3 : hasEventMarker doc <;> by_cases h4 : hasAddressMarker doc <;>
        simp [h1, h2, h3, h4]
  · intro doc h
    simp [detect_content_type, h]
  · intro doc h1 h2 h3 h4
    simp [detect_content_type, h1, h2, h3, h4]
  · intro doc h1 h2 h3 h4
    simp [detect_content_type, h1, h2, h3, h4]

/-- Closed instance of the C5 theorem: a price-class page (even with an
address marker present) is `product`, an address-only page is
`local_business`, a page with no markers is `webpage`. -/
theorem detect_content_type_priority_witness :
    detect_content_type [divPriceClass, spanContactClass] = "product" ∧
      detect_content_type [spanContactClass] = "local_business" ∧
      detect_content_type [] = "webpage" :=
  ⟨detect_content_type_priority.2.1 [divPriceClass, spanContactClass] (by decide),
   detect_content_type_priority.2.2.1 [spanContactClass]
     (by decide) (by decide) (by decide) (by decide),
   detect_content_type_priority.2.2.2 []
     (by decide) (by decide) (by decide) (by decide)⟩

/-- Claim C5 counterexample: a document whose only marker is a
price-pattern `id` attribute (and no class) classifies as `webpage`, not
`product` — the code never inspects the `id` attribute. -/
theorem detect_content_type_id_cex :
    divPriceId.getAttr "id" = some "price" ∧
      ((detect_content_type [divPriceId] == "product") = false) ∧
      detect_content_type [divPriceId] = "webpage" := by
  decide

/-- Claim C6 (amended): for a well-formed sitemap the resolver returns the
trimmed `url/loc` texts in document order, truncated to the first 50 — but
a `loc` node whose text is empty is skipped by the truthiness test, so the
count is `min 50` of the number of `loc` nodes with non-empty text, not of
all `loc` nodes. -/
theorem scrape_sitemap_truthy_locs (locs : List LocNode) :
    scrape_sitemap (Except.ok locs) = (locs.filterMap locKept).take 50 ∧
      (scrape_sitemap (Except.ok locs)).length
        = min 50 (locs.countP fun l => (locKept l).isSome) := by
  refine ⟨scrape_sitemap_eq locs, ?_⟩
  rw [scrape_sitemap_eq, List.length_take, length_filterMap_eq_countP]

/-- Claim C6 counterexample: a sitemap with a single empty `loc` node
resolves to no URLs, while `min(50, countOf loc nodes)` is 1. -/
theorem scrape_sitemap_empty_loc_cex :
    ((scrape_sitemap (Except.ok [{ text := none }])).length
        == min 50 ([({ text := none } : LocNode)]).length) = false := by
  decide

/-- Claim C7: when the generation-service call inside
`generate_structured_data` raises (network, auth, rate limit — any
exception), the function returns the empty string to its caller and never
propagates the fault. -/
theorem generate_markup_service_failure (page_info : PageInfo)
    (schema_type : String) (custom_schema : Option String)
    (svc : String → Except String String) (e : String)
    (h : svc (genPrompt page_info (schemaToUse schema_type custom_schema))
      = Except.error e) :
    generate_structured_data page_info schema_type custom_schema svc = "" := by
  simp [generate_structured_data, h]

/-- Closed instance of the C7 theorem at a concrete page and an
always-failing service. -/
theorem generate_markup_service_failure_witness :
    generate_structured_data okPage "Product" none
      (fun _ => Except.error "rate limit") = "" :=
  generate_markup_service_failure okPage "Product" none
    (fun _ => Except.error "rate limit") "rate limit" rfl

/-- Claim C8: every PageSignal produced by extraction holds at most 5
heading entries per heading level and at most 10 image entries (the error
record trivially so). -/
theorem scrape_page_caps (url : String) (fetch : Except String (List Element))
    (L : Nat) :
    ((scrape_page url fetch).headings.countP fun p => p.1 == L) ≤ 5 ∧
      (scrape_page url fetch).images.length ≤ 10 := by
  cases fetch with
  | error e => simp [scrape_page, errorRecord]
  | ok doc =>
    cases h : titleOf doc with
    | error e => simp [scrape_page, h, errorRecord]
    | ok t =>
      have hs : scrape_page url (Except.ok doc)
          = { url := url, error := none, title := t,
              meta_description := meta_description_of doc,
              headings := page_headings doc, images := page_images url doc,
              links := [], content_type := detect_content_type doc,
              structured_data := extract_existing_structured_data doc } := by
        simp [scrape_page, h]
      rw [hs]
      exact ⟨countP_page_headings doc L, page_images_length_le url doc⟩

/-- Claim C9: the synthetic round-trip document
`<title>T</title><meta name="description" content="D"><h1>H1</h1>
<img src="/a.png" alt="A">` extracted against `https://x.test/p` yields
title `"T"`, meta description `"D"`, the single heading `(1, "H1")` and
the single image `("https://x.test/a.png", "A", "")`. -/
theorem scrape_page_round_trip :
    (scrape_page "https://x.test/p" (Except.ok roundTripDoc)).title = "T" ∧
      (scrape_page "https://x.test/p" (Except.ok roundTripDoc)).meta_description = "D" ∧
      (scrape_page "https://x.test/p" (Except.ok roundTripDoc)).headings = [(1, "H1")] ∧
      (scrape_page "https://x.test/p" (Except.ok roundTripDoc)).images
        = [("https://x.test/a.png", "A", "")] := by
  decide

/-- Claim C10: an empty-string custom schema does not override
`schema_type` — the override is a Python truthiness test — so calling with
`custom_schema = ""` builds the same prompt and returns the same result as
calling with no custom schema, and the effective type is `schema_type`. -/
theorem generate_markup_empty_custom_schema (page_info : PageInfo)
    (schema_type : String) (svc : String → Except String String) :
    schemaToUse schema_type (some "") = schema_type ∧
      generate_structured_data page_info schema_type (some "") svc
        = generate_structured_data page_info schema_type none svc :=
  ⟨rfl, rfl⟩
